import Mathlib

/-!
Verification development for `generate_app_icons.py` (CastReader repository).

The script is a linear batch transform: it reads one source image, iterates a
fixed 18-entry table `ICON_SIZES` of `(size_pt, scale, idiom, filename)`
tuples, writes one resized PNG per tuple into an output directory, and then
writes a `Contents.json` manifest describing all outputs.

The shallow embedding below mirrors the Python source:
* Python numbers appearing in the table are either `int` or `float`; the two
  render differently under `f"{x}"` (e.g. `20` vs `83.5`), so they are
  modelled by the sum type `PyNum`.
* The PIL image is modelled by its observable attributes used by the script:
  pixel width, pixel height and colour `mode` string; `Image.resize` and
  `Image.convert` are modelled by their effect on those attributes.
* Filesystem effects (`os.makedirs`, `Image.open`, `Image.save`,
  `open(...).write`) are modelled as an ordered trace of `FsOp` operations in
  the exact order the script performs them, so that claims about abort points
  and partial output can be stated as facts about prefixes of the trace.
-/

namespace CastReader

/-- A Python number as it appears in the source: an `int` literal, or a
`float` literal.  The distinction matters because `f"{x}"` renders `20` as
`"20"` but `83.5` as `"83.5"`, and because `int * int` stays `int` while
`float * int` is a `float`.

The only float in the source is the literal `83.5`.  Every float value the
script manipulates is a one-decimal-digit value multiplied by small
integers; such values and products are exactly representable in IEEE
doubles, so Python's float arithmetic on them is exact and a float `x` is
modelled exactly by the integer `10 * x` of tenths. -/
inductive PyNum where
  | pint (n : Int)
  | pfloat (tenths : Int)
deriving DecidableEq, Repr

/-- The exact rational value of a Python number. -/
def PyNum.toRat : PyNum → Rat
  | .pint n => (n : Rat)
  | .pfloat t => (t : Rat) / 10

/-- Python `int(x)`: identity on ints, truncation toward zero on floats
(`Int.tdiv` is t-division, i.e. truncation toward zero). -/
def PyNum.pyIntOf : PyNum → Int
  | .pint n => n
  | .pfloat t => Int.tdiv t 10

/-- The Python test `x == int(x)` from line 76 of the source: for a float
of `t` tenths this holds exactly when `t` is a multiple of 10. -/
def PyNum.isWholeEq : PyNum → Bool
  | .pint _ => true
  | .pfloat t => decide (t = 10 * Int.tdiv t 10)

/-- Python `f"{x}"` for the numbers occurring in the script: an int
renders as its decimal digits; a one-decimal-digit float renders with its
integer part, a dot, and its single fractional digit (`83.5` → `"83.5"`),
or with a trailing `".0"` when whole (`60.0` → `"60.0"`). -/
def PyNum.pyFormat : PyNum → String
  | .pint n => toString n
  | .pfloat t =>
      if t = 10 * Int.tdiv t 10 then toString (Int.tdiv t 10) ++ ".0"
      else toString (Int.tdiv t 10) ++ "." ++ toString (t - 10 * Int.tdiv t 10).natAbs

/-- Python `size_pt * scale` where `scale` is an `int`: `int * int` stays
`int`; `float * int` is a `float`, and on the exact one-decimal values at
hand the product is exact (`t/10 * s = (t*s)/10`). -/
def PyNum.mulScale : PyNum → Int → PyNum
  | .pint n, s => .pint (n * s)
  | .pfloat t, s => .pfloat (t * s)

/-- One row of the source's `ICON_SIZES` table:
`(size_pt, scale, idiom, filename)`. -/
structure IconEntry where
  size_pt : PyNum
  scale : Int
  idiom : String
  filename : String
deriving DecidableEq, Repr

/-- The `ICON_SIZES` table, transcribed from lines 13-42 of the source in
source order.  Whole sizes are Python `int` literals; `83.5` is a `float`. -/
def ICON_SIZES : List IconEntry := [
  ⟨.pint 20, 2, "iphone", "icon-20@2x.png"⟩,
  ⟨.pint 20, 3, "iphone", "icon-20@3x.png"⟩,
  ⟨.pint 29, 2, "iphone", "icon-29@2x.png"⟩,
  ⟨.pint 29, 3, "iphone", "icon-29@3x.png"⟩,
  ⟨.pint 40, 2, "iphone", "icon-40@2x.png"⟩,
  ⟨.pint 40, 3, "iphone", "icon-40@3x.png"⟩,
  ⟨.pint 60, 2, "iphone", "icon-60@2x.png"⟩,
  ⟨.pint 60, 3, "iphone", "icon-60@3x.png"⟩,
  ⟨.pint 20, 1, "ipad", "icon-20-ipad.png"⟩,
  ⟨.pint 20, 2, "ipad", "icon-20@2x-ipad.png"⟩,
  ⟨.pint 29, 1, "ipad", "icon-29-ipad.png"⟩,
  ⟨.pint 29, 2, "ipad", "icon-29@2x-ipad.png"⟩,
  ⟨.pint 40, 1, "ipad", "icon-40-ipad.png"⟩,
  ⟨.pint 40, 2, "ipad", "icon-40@2x-ipad.png"⟩,
  ⟨.pint 76, 1, "ipad", "icon-76.png"⟩,
  ⟨.pint 76, 2, "ipad", "icon-76@2x.png"⟩,
  ⟨.pfloat 835, 2, "ipad", "icon-83.5@2x.png"⟩,
  ⟨.pint 1024, 1, "ios-marketing", "icon-1024.png"⟩ ]

/-- A PIL image, reduced to the attributes the script observes: pixel
dimensions and colour mode string. -/
structure PILImage where
  width : Int
  height : Int
  mode : String
deriving DecidableEq, Repr

/-- PIL's `Image.LANCZOS` resampling-filter constant. -/
def LANCZOS : Nat := 1

/-- `img.resize((w, h), filt)`: new dimensions, same colour mode (the
resampling filter affects pixel content only, which the script never
inspects). -/
def pilResize (img : PILImage) (w h : Int) (_filt : Nat) : PILImage :=
  ⟨w, h, img.mode⟩

/-- `img.convert(m)`: same dimensions, new colour mode. -/
def pilConvert (img : PILImage) (m : String) : PILImage :=
  ⟨img.width, img.height, m⟩

/-- Result of the load-and-normalise phase (lines 52-59 of the source):
the working buffer, whether the dimension warning fired, the resample the
warning path performed (target dimensions and filter), and whether the
`convert("RGBA")` branch ran. -/
structure NormResult where
  image : PILImage
  warned : Bool
  resampleOp : Option (Int × Int × Nat)
  converted : Bool
deriving DecidableEq, Repr

/-- Lines 53-59 of the source: resize to 1024x1024 with `Image.LANCZOS`
when the dimensions differ from `(1024, 1024)` (printing a warning), then
convert to mode `"RGBA"` when the mode differs from `"RGBA"`. -/
def normalizeSource (source : PILImage) : NormResult :=
  let step :=
    if (source.width, source.height) ≠ ((1024 : Int), (1024 : Int)) then
      (pilResize source 1024 1024 LANCZOS, true,
        some ((1024 : Int), (1024 : Int), LANCZOS))
    else (source, false, none)
  if step.1.mode ≠ "RGBA" then
    ⟨pilConvert step.1 "RGBA", step.2.1, step.2.2, true⟩
  else
    ⟨step.1, step.2.1, step.2.2, false⟩

/-- One element of the `images_info` list (lines 75-80 of the source). -/
structure ManifestEntry where
  size : String
  idiom : String
  filename : String
  scale : String
deriving DecidableEq, Repr

/-- Line 64 of the source: `pixel_size = int(size_pt * scale)`. -/
def pixelSize (e : IconEntry) : Int :=
  (e.size_pt.mulScale e.scale).pyIntOf

/-- Line 76 of the source, transcribed including its (vacuous) conditional:
`f"{size_pt}x{size_pt}" if size_pt == int(size_pt) else
f"{size_pt}x{size_pt}"` — both branches are the same f-string. -/
def sizeField (p : PyNum) : String :=
  if p.isWholeEq then p.pyFormat ++ "x" ++ p.pyFormat
  else p.pyFormat ++ "x" ++ p.pyFormat

/-- The dict appended to `images_info` for one table entry
(lines 75-80 of the source). -/
def manifestEntryOf (e : IconEntry) : ManifestEntry :=
  ⟨sizeField e.size_pt, e.idiom, e.filename, toString e.scale ++ "x"⟩

/-- `os.path.join(dir, name)` for a directory path without a trailing
separator and a relative name, the only way the script calls it. -/
def pathJoin (dir name : String) : String :=
  dir ++ "/" ++ name

/-- `json.dump(..., indent=2)` rendering of one `images_info` element at
nesting depth 2, keys in insertion order. -/
def manifestEntryJson (e : ManifestEntry) : String :=
  "    \x7b\n      \"size\": \"" ++ e.size ++
  "\",\n      \"idiom\": \"" ++ e.idiom ++
  "\",\n      \"filename\": \"" ++ e.filename ++
  "\",\n      \"scale\": \"" ++ e.scale ++ "\"\n    \x7d"

/-- `json.dump(contents, f, indent=2)` for the `contents` dict of
lines 83-89: the `images` list followed by the fixed `info` dict. -/
def contentsJsonOf (entries : List ManifestEntry) : String :=
  "\x7b\n  \"images\": [\n" ++
  String.intercalate ",\n" (entries.map manifestEntryJson) ++
  "\n  ],\n  \"info\": \x7b\n    \"version\": 1,\n    \"author\": \"xcode\"\n  \x7d\n\x7d"

/-- A filesystem side effect of the script, in the vocabulary it uses.
`removeFile` is included so that "no rollback" is statable: the script
never emits it. -/
inductive FsOp where
  | makedirs (dir : String)
  | openImg (path : String)
  | savePng (path : String) (img : PILImage)
  | writeText (path : String) (text : String)
  | removeFile (path : String)
deriving DecidableEq, Repr

/-- Whether an operation writes a file inside the output directory. -/
def FsOp.isFileWrite : FsOp → Bool
  | .savePng _ _ => true
  | .writeText _ _ => true
  | _ => false

/-- Line 67 of the source: the buffer saved for one table entry —
`source.resize((pixel_size, pixel_size), Image.LANCZOS)` applied to the
normalised source. -/
def resizedFor (norm : PILImage) (e : IconEntry) : PILImage :=
  pilResize norm (pixelSize e) (pixelSize e) LANCZOS

/-- The `resized.save(output_path, "PNG")` operations of the loop
(lines 63-72), in table order. -/
def saveOps (output_dir : String) (norm : PILImage) : List FsOp :=
  ICON_SIZES.map fun e => FsOp.savePng (pathJoin output_dir e.filename) (resizedFor norm e)

/-- The `images_info` list after the loop completes. -/
def imagesInfoList : List ManifestEntry :=
  ICON_SIZES.map manifestEntryOf

/-- The exact text written to `Contents.json` (lines 82-93). -/
def contentsText : String :=
  contentsJsonOf imagesInfoList

/-- The observable outcome of one `generate_icons` run. -/
structure RunResult where
  trace : List FsOp
  imagesInfo : List ManifestEntry
  norm : NormResult
  printed : List String
deriving Repr

/-- The warning printed on line 54: `f"Warning: Source image is
{source.size}, resizing to 1024x1024"`, where `source.size` is the Python
tuple `(w, h)`. -/
def warningLine (source : PILImage) : String :=
  "Warning: Source image is (" ++ toString source.width ++ ", " ++
  toString source.height ++ "), resizing to 1024x1024"

/-- The progress line printed on line 72 for one entry. -/
def progressLine (e : IconEntry) : String :=
  "Generated: " ++ e.filename ++ " (" ++ toString (pixelSize e) ++ "x" ++
  toString (pixelSize e) ++ ")"

/-- `generate_icons(source_path, output_dir)` (lines 45-96), as a function
of the decoded source image.  The trace lists the filesystem operations in
the exact order the script performs them: `os.makedirs` first, then
`Image.open`, then one PNG save per table entry in table order, and the
`Contents.json` write last. -/
def generate_icons (source_path output_dir : String) (source : PILImage) :
    RunResult :=
  let norm := normalizeSource source
  { trace :=
      [FsOp.makedirs output_dir, FsOp.openImg source_path] ++
      saveOps output_dir norm.image ++
      [FsOp.writeText (pathJoin output_dir "Contents.json") contentsText],
    imagesInfo := imagesInfoList,
    norm := norm,
    printed :=
      (if norm.warned then [warningLine source] else []) ++
      ICON_SIZES.map progressLine ++
      ["Generated: Contents.json", "\nDone! All icons saved to: " ++ output_dir] }

/-- The default source path of line 104. -/
def defaultSource (script_dir : String) : String :=
  pathJoin script_dir "icon.png"

/-- The default output directory of line 105. -/
def defaultOutput (script_dir : String) : String :=
  pathJoin script_dir "CastReader/Assets.xcassets/AppIcon.appiconset"

/-- The observable outcome of the `__main__` block. -/
structure MainResult where
  exitCode : Nat
  printed : List String
  trace : List FsOp
deriving Repr

/-- The `__main__` block (lines 99-116): resolve the two positional
arguments against the defaults, check that the source path exists, and
either print the error plus usage hint and exit with status 1, or run
`generate_icons` and finish with status 0.  `argv0` is `sys.argv[0]`,
`args` the remaining arguments, `pathExists` models `os.path.exists`, and
`source` the image `Image.open` would decode. -/
def pyMain (argv0 : String) (args : List String) (script_dir : String)
    (pathExists : String → Bool) (source : PILImage) : MainResult :=
  let source_path := match args with
    | [] => defaultSource script_dir
    | a :: _ => a
  let output_dir := match args with
    | _ :: b :: _ => b
    | _ => defaultOutput script_dir
  if pathExists source_path then
    let r := generate_icons source_path output_dir source
    { exitCode := 0, printed := r.printed, trace := r.trace }
  else
    { exitCode := 1,
      printed :=
        ["Error: Source image not found: " ++ source_path,
         "Usage: python " ++ argv0 ++ " [source_image.png] [output_dir]"],
      trace := [] }

/-- The static spec table of spec section 6, with the spec's idiom classes
rendered per its note (`phone` → `"iphone"`, `tablet` → `"ipad"`,
`storefront` → `"ios-marketing"`), in the spec's listed order. -/
def specTable : List (PyNum × Int × String × String) := [
  (.pint 20, 2, "iphone", "icon-20@2x.png"),
  (.pint 20, 3, "iphone", "icon-20@3x.png"),
  (.pint 29, 2, "iphone", "icon-29@2x.png"),
  (.pint 29, 3, "iphone", "icon-29@3x.png"),
  (.pint 40, 2, "iphone", "icon-40@2x.png"),
  (.pint 40, 3, "iphone", "icon-40@3x.png"),
  (.pint 60, 2, "iphone", "icon-60@2x.png"),
  (.pint 60, 3, "iphone", "icon-60@3x.png"),
  (.pint 20, 1, "ipad", "icon-20-ipad.png"),
  (.pint 20, 2, "ipad", "icon-20@2x-ipad.png"),
  (.pint 29, 1, "ipad", "icon-29-ipad.png"),
  (.pint 29, 2, "ipad", "icon-29@2x-ipad.png"),
  (.pint 40, 1, "ipad", "icon-40-ipad.png"),
  (.pint 40, 2, "ipad", "icon-40@2x-ipad.png"),
  (.pint 76, 1, "ipad", "icon-76.png"),
  (.pint 76, 2, "ipad", "icon-76@2x.png"),
  (.pfloat 835, 2, "ipad", "icon-83.5@2x.png"),
  (.pint 1024, 1, "ios-marketing", "icon-1024.png") ]

/-- Paths of the PNG save operations of a trace, in trace order. -/
def pngWritePaths (t : List FsOp) : List String :=
  t.filterMap fun op => match op with
    | .savePng p _ => some p
    | _ => none

/-- Path, width and height of the PNG save operations of a trace. -/
def pngWriteDims (t : List FsOp) : List (String × Int × Int) :=
  t.filterMap fun op => match op with
    | .savePng p img => some (p, img.width, img.height)
    | _ => none

/-- Path and text of the plain-text write operations of a trace. -/
def textWrites (t : List FsOp) : List (String × String) :=
  t.filterMap fun op => match op with
    | .writeText p s => some (p, s)
    | _ => none

/-- The source path the `__main__` block resolves from the arguments
(line 108 of the source): the first argument if given, else the default. -/
def resolvedSourcePath (args : List String) (script_dir : String) : String :=
  match args with
  | [] => defaultSource script_dir
  | a :: _ => a

/-- C1: every successful run saves exactly 18 PNG files whose filenames,
point sizes, scales and idiom strings are exactly those of the static spec
table in the spec's listed order (with the spec's idiom classes rendered as
"iphone"/"ipad"/"ios-marketing"), plus one `Contents.json` whose `images`
array has exactly 18 entries in that same table order. -/
theorem spec_c1 (sp dir : String) (src : PILImage) :
    (ICON_SIZES.map fun e => (e.size_pt, e.scale, e.idiom, e.filename)) = specTable ∧
    ICON_SIZES.length = 18 ∧
    pngWritePaths (generate_icons sp dir src).trace =
      ICON_SIZES.map (fun e => pathJoin dir e.filename) ∧
    (pngWritePaths (generate_icons sp dir src).trace).length = 18 ∧
    textWrites (generate_icons sp dir src).trace =
      [(pathJoin dir "Contents.json", contentsText)] ∧
    contentsText = contentsJsonOf ((generate_icons sp dir src).imagesInfo) ∧
    (generate_icons sp dir src).imagesInfo = ICON_SIZES.map manifestEntryOf ∧
    (generate_icons sp dir src).imagesInfo.length = 18 :=
  ⟨by decide, by decide, rfl, rfl, rfl, rfl, rfl, rfl⟩

/-- C2: for every entry of the table the output pixel edge length equals
the floor of `sizePoints * scale`, computed by integer truncation; in
particular the `83.5`-point, scale-2 entry yields a 167x167 output. -/
theorem spec_c2 (e : IconEntry) (he : e ∈ ICON_SIZES) :
    pixelSize e = ⌊ e.size_pt.toRat * (e.scale : Rat) ⌋ ∧
    (e.size_pt = .pfloat 835 → pixelSize e = 167 ∧
      ∀ img : PILImage, resizedFor img e = ⟨167, 167, img.mode⟩) := by
  fin_cases he <;>
    refine ⟨by norm_num [pixelSize, PyNum.mulScale, PyNum.pyIntOf, PyNum.toRat, Int.tdiv], ?_⟩ <;>
    intro hf <;> first
      | exact absurd hf (by decide)
      | exact ⟨by decide, fun img => rfl⟩

/-- C2 witness: the `83.5`-point entry is in the table, satisfies the
floor formula, and produces pixel edge 167. -/
theorem spec_c2_witness :
    pixelSize ⟨.pfloat 835, 2, "ipad", "icon-83.5@2x.png"⟩ =
      ⌊ (PyNum.pfloat 835).toRat * ((2 : Int) : Rat) ⌋ ∧
    pixelSize ⟨.pfloat 835, 2, "ipad", "icon-83.5@2x.png"⟩ = 167 :=
  ⟨(spec_c2 ⟨.pfloat 835, 2, "ipad", "icon-83.5@2x.png"⟩ (by decide)).1,
   ((spec_c2 ⟨.pfloat 835, 2, "ipad", "icon-83.5@2x.png"⟩ (by decide)).2 rfl).1⟩

/-- C3: for every table entry the manifest `size` field renders the point
size as `"{size}x{size}"` with whole sizes shown without a decimal point
(`"60x60"`, never `"60.0x60.0"`) and `83.5` shown as `"83.5x83.5"`, and the
`scale` field renders as `"{scale}x"`. -/
theorem spec_c3 (sp dir : String) (src : PILImage) :
    ((generate_icons sp dir src).imagesInfo.map fun m => m.size) =
      ["20x20", "20x20", "29x29", "29x29", "40x40", "40x40", "60x60", "60x60",
       "20x20", "20x20", "29x29", "29x29", "40x40", "40x40", "76x76", "76x76",
       "83.5x83.5", "1024x1024"] ∧
    ((generate_icons sp dir src).imagesInfo.map fun m => m.scale) =
      ["2x", "3x", "2x", "3x", "2x", "3x", "2x", "3x", "1x", "2x", "1x", "2x",
       "1x", "2x", "1x", "2x", "2x", "1x"] :=
  ⟨rfl, rfl⟩

/-- C4: for every decodable source whose dimensions are not exactly
1024x1024, the generator warns (non-fatally), resamples to 1024x1024 with
the LANCZOS filter, continues with the resampled buffer, and performs
exactly the same output writes as it would from a 1024x1024 source. -/
theorem spec_c4 (src : PILImage)
    (h : (src.width, src.height) ≠ ((1024 : Int), (1024 : Int))) :
    (normalizeSource src).warned = true ∧
    (normalizeSource src).resampleOp = some (1024, 1024, LANCZOS) ∧
    (normalizeSource src).image = ⟨1024, 1024, "RGBA"⟩ ∧
    (∀ sp dir, (generate_icons sp dir src).trace =
      (generate_icons sp dir ⟨1024, 1024, "RGBA"⟩).trace) ∧
    (∀ sp dir, warningLine src ∈ (generate_icons sp dir src).printed) := by
  have hnorm : normalizeSource src =
      ⟨⟨1024, 1024, "RGBA"⟩, true, some (1024, 1024, LANCZOS), src.mode ≠ "RGBA"⟩ := by
    by_cases hm : src.mode = "RGBA" <;>
      simp [normalizeSource, pilResize, pilConvert, h, hm]
  have hbase : normalizeSource ⟨1024, 1024, "RGBA"⟩ =
      ⟨⟨1024, 1024, "RGBA"⟩, false, none, false⟩ := by
    simp [normalizeSource]
  refine ⟨by rw [hnorm], by rw [hnorm], by rw [hnorm], ?_, ?_⟩
  · intro sp dir
    simp [generate_icons, hnorm, hbase]
  · intro sp dir
    simp [generate_icons, hnorm]

/-- C4 witness: a non-square 800x600 RGB source warns, is normalised to
1024x1024, and yields the same write trace as a 1024x1024 RGBA source. -/
theorem spec_c4_witness :
    (normalizeSource ⟨800, 600, "RGB"⟩).warned = true ∧
    (normalizeSource ⟨800, 600, "RGB"⟩).image = ⟨1024, 1024, "RGBA"⟩ ∧
    (generate_icons "icon.png" "out" ⟨800, 600, "RGB"⟩).trace =
      (generate_icons "icon.png" "out" ⟨1024, 1024, "RGBA"⟩).trace :=
  ⟨(spec_c4 ⟨800, 600, "RGB"⟩ (by decide)).1,
   (spec_c4 ⟨800, 600, "RGB"⟩ (by decide)).2.2.1,
   (spec_c4 ⟨800, 600, "RGB"⟩ (by decide)).2.2.2.1 "icon.png" "out"⟩

/-- C5: if the resolved source path does not exist the program exits with
status 1 after printing the error and a usage hint naming the invoked
program and both optional arguments, and performs no filesystem operation;
otherwise it completes with status 0. -/
theorem spec_c5 (argv0 : String) (args : List String) (script_dir : String)
    (pathExists : String → Bool) (source : PILImage) :
    (pathExists (resolvedSourcePath args script_dir) = false →
      (pyMain argv0 args script_dir pathExists source).exitCode = 1 ∧
      (pyMain argv0 args script_dir pathExists source).trace = [] ∧
      (pyMain argv0 args script_dir pathExists source).printed =
        ["Error: Source image not found: " ++ resolvedSourcePath args script_dir,
         "Usage: python " ++ argv0 ++ " [source_image.png] [output_dir]"]) ∧
    (pathExists (resolvedSourcePath args script_dir) = true →
      (pyMain argv0 args script_dir pathExists source).exitCode = 0) := by
  cases args with
  | nil => constructor <;> intro h <;> simp_all [pyMain, resolvedSourcePath]
  | cons a rest =>
      cases rest <;> constructor <;> intro h <;> simp_all [pyMain, resolvedSourcePath]

/-- C5 witness: with a missing source the exit status is 1 and no
filesystem operation happens; with an existing source the status is 0. -/
theorem spec_c5_witness :
    (pyMain "generate_app_icons.py" ["missing.png"] "."
      (fun _ => false) ⟨1024, 1024, "RGBA"⟩).exitCode = 1 ∧
    (pyMain "generate_app_icons.py" ["missing.png"] "."
      (fun _ => false) ⟨1024, 1024, "RGBA"⟩).trace = [] ∧
    (pyMain "generate_app_icons.py" ["icon.png"] "."
      (fun _ => true) ⟨1024, 1024, "RGBA"⟩).exitCode = 0 :=
  ⟨((spec_c5 "generate_app_icons.py" ["missing.png"] "."
      (fun _ => false) ⟨1024, 1024, "RGBA"⟩).1 rfl).1,
   ((spec_c5 "generate_app_icons.py" ["missing.png"] "."
      (fun _ => false) ⟨1024, 1024, "RGBA"⟩).1 rfl).2.1,
   (spec_c5 "generate_app_icons.py" ["icon.png"] "."
      (fun _ => true) ⟨1024, 1024, "RGBA"⟩).2 rfl⟩

/-- C6: if a per-entry write fails after `i` of the 18 saves, the
operations already performed are exactly the directory creation, the
source open and those `i` saves — in particular `Contents.json` has not
been written — and the run never removes a file, so the already-written
saves remain on disk. -/
theorem spec_c6 (sp dir : String) (src : PILImage) (i : Nat) (h : i ≤ 18) :
    ((generate_icons sp dir src).trace.take (i + 2) =
      [FsOp.makedirs dir, FsOp.openImg sp] ++
        (saveOps dir (normalizeSource src).image).take i) ∧
    (∀ p s, FsOp.writeText p s ∉ (generate_icons sp dir src).trace.take (i + 2)) ∧
    (∀ p, FsOp.removeFile p ∉ (generate_icons sp dir src).trace) := by
  have hlen : (saveOps dir (normalizeSource src).image).length = 18 := by
    simp [saveOps, ICON_SIZES]
  have htake : (generate_icons sp dir src).trace.take (i + 2) =
      [FsOp.makedirs dir, FsOp.openImg sp] ++
        (saveOps dir (normalizeSource src).image).take i := by
    show (FsOp.makedirs dir :: FsOp.openImg sp ::
      (saveOps dir (normalizeSource src).image ++
        [FsOp.writeText (pathJoin dir "Contents.json") contentsText])).take (i + 2) = _
    rw [show i + 2 = (i + 1) + 1 from rfl, List.take_succ_cons, List.take_succ_cons,
      List.take_append_of_le_length (by rw [hlen]; exact h)]
    rfl
  refine ⟨htake, ?_, ?_⟩
  · intro p s hmem
    rw [htake] at hmem
    rcases List.mem_append.mp hmem with hm | hm
    · simp at hm
    · have hsub := List.take_subset i _ hm
      simp only [saveOps, List.mem_map] at hsub
      rcases hsub with ⟨e, _, he⟩
      simp at he
  · intro p hmem
    have hmem' : FsOp.removeFile p ∈ (FsOp.makedirs dir :: FsOp.openImg sp ::
        (saveOps dir (normalizeSource src).image ++
         [FsOp.writeText (pathJoin dir "Contents.json") contentsText])) := hmem
    rcases List.mem_cons.mp hmem' with h1 | h1
    · simp at h1
    rcases List.mem_cons.mp h1 with h2 | h2
    · simp at h2
    rcases List.mem_append.mp h2 with h3 | h3
    · simp only [saveOps, List.mem_map] at h3
      rcases h3 with ⟨e, _, he⟩
      simp at he
    · simp at h3

/-- C6 witness: after 7 of the 18 saves the performed operations are the
directory creation, the open and those 7 saves, and `Contents.json` is not
among them. -/
theorem spec_c6_witness :
    ((generate_icons "icon.png" "out" ⟨1024, 1024, "RGBA"⟩).trace.take 9 =
      [FsOp.makedirs "out", FsOp.openImg "icon.png"] ++
        (saveOps "out" (normalizeSource ⟨1024, 1024, "RGBA"⟩).image).take 7) ∧
    FsOp.writeText (pathJoin "out" "Contents.json") contentsText ∉
      (generate_icons "icon.png" "out" ⟨1024, 1024, "RGBA"⟩).trace.take 9 :=
  ⟨(spec_c6 "icon.png" "out" ⟨1024, 1024, "RGBA"⟩ 7 (by decide)).1,
   (spec_c6 "icon.png" "out" ⟨1024, 1024, "RGBA"⟩ 7 (by decide)).2.1
     (pathJoin "out" "Contents.json") contentsText⟩

/-- C7: two runs on the same source and output directory are identical:
the same write trace, the same (fixed) `Contents.json` bytes, and the same
PNG paths and pixel dimensions, every output being written at a filename
fully determined by the table. -/
theorem spec_c7 (sp dir : String) (s1 s2 : PILImage) (h : s1 = s2) :
    generate_icons sp dir s1 = generate_icons sp dir s2 ∧
    textWrites (generate_icons sp dir s1).trace =
      [(pathJoin dir "Contents.json", contentsText)] ∧
    textWrites (generate_icons sp dir s2).trace =
      [(pathJoin dir "Contents.json", contentsText)] ∧
    pngWriteDims (generate_icons sp dir s1).trace =
      ICON_SIZES.map (fun e => (pathJoin dir e.filename, pixelSize e, pixelSize e)) ∧
    pngWriteDims (generate_icons sp dir s2).trace =
      ICON_SIZES.map (fun e => (pathJoin dir e.filename, pixelSize e, pixelSize e)) := by
  subst h
  exact ⟨rfl, rfl, rfl, rfl, rfl⟩

/-- C7 witness: two runs on the same 1024x1024 RGBA source produce the
same result and write the same manifest bytes. -/
theorem spec_c7_witness :
    generate_icons "icon.png" "out" ⟨1024, 1024, "RGBA"⟩ =
      generate_icons "icon.png" "out" ⟨1024, 1024, "RGBA"⟩ ∧
    textWrites (generate_icons "icon.png" "out" ⟨1024, 1024, "RGBA"⟩).trace =
      [(pathJoin "out" "Contents.json", contentsText)] :=
  ⟨(spec_c7 "icon.png" "out" ⟨1024, 1024, "RGBA"⟩ ⟨1024, 1024, "RGBA"⟩ rfl).1,
   (spec_c7 "icon.png" "out" ⟨1024, 1024, "RGBA"⟩ ⟨1024, 1024, "RGBA"⟩ rfl).2.1⟩

/-- C8 counterexample: the claim says the conversion to an alpha-bearing
format is always performed; but for a decoded buffer already in mode
`"RGBA"` the source's guard `if source.mode != "RGBA"` skips the
conversion, so it is not performed. -/
theorem spec_c8_cex :
    (normalizeSource ⟨1024, 1024, "RGBA"⟩).converted = false := by decide

/-- C8 (amended): the conversion runs exactly when the decoded mode is not
`"RGBA"` (so it does run for alpha-bearing modes such as `"LA"` that are
not RGBA, and is skipped when the buffer is already RGBA); in every case
the buffer after normalisation has mode `"RGBA"`, so every subsequent
resample operates on a consistent pixel format. -/
theorem spec_c8_amended (src : PILImage) :
    ((normalizeSource src).converted = true ↔ src.mode ≠ "RGBA") ∧
    (normalizeSource src).image.mode = "RGBA" := by
  by_cases hd : (src.width, src.height) ≠ ((1024 : Int), (1024 : Int)) <;>
    by_cases hm : src.mode = "RGBA" <;>
      simp [normalizeSource, pilResize, pilConvert, hd, hm]

/-- C9: the output directory creation is the first filesystem operation of
`generate_icons`, so every file write happens strictly after it. -/
theorem spec_c9 (sp dir : String) (src : PILImage) :
    (generate_icons sp dir src).trace.head? = some (FsOp.makedirs dir) ∧
    ∀ op ∈ (generate_icons sp dir src).trace, op.isFileWrite = true →
      op ∈ (generate_icons sp dir src).trace.tail := by
  refine ⟨rfl, ?_⟩
  intro op hop hw
  rcases List.mem_cons.mp hop with h | h
  · subst h; simp [FsOp.isFileWrite] at hw
  · exact h

/-- C9 witness: on a concrete run the trace starts with the directory
creation and the first PNG save occurs after it. -/
theorem spec_c9_witness :
    (generate_icons "icon.png" "out" ⟨1024, 1024, "RGBA"⟩).trace.head? =
      some (FsOp.makedirs "out") ∧
    FsOp.savePng (pathJoin "out" "icon-20@2x.png") ⟨40, 40, "RGBA"⟩ ∈
      (generate_icons "icon.png" "out" ⟨1024, 1024, "RGBA"⟩).trace.tail :=
  ⟨(spec_c9 "icon.png" "out" ⟨1024, 1024, "RGBA"⟩).1,
   (spec_c9 "icon.png" "out" ⟨1024, 1024, "RGBA"⟩).2
     (FsOp.savePng (pathJoin "out" "icon-20@2x.png") ⟨40, 40, "RGBA"⟩)
     (by decide) rfl⟩

/-- C10: the directory creation precedes opening the source image, so a
decode failure aborts a run in which the output directory has already been
created: the operations performed before the open are exactly the
directory creation. -/
theorem spec_c10 (sp dir : String) (src : PILImage) :
    (generate_icons sp dir src).trace.take 1 = [FsOp.makedirs dir] ∧
    (generate_icons sp dir src).trace[1]? = some (FsOp.openImg sp) :=
  ⟨rfl, rfl⟩

end CastReader
